import Mathlib

/-!
Verification of the chunk-orchestration loop of `dfxexample.py`.

The file embeds `doExtraction` (and its helper `savePayload`) as pure Lean
functions.  The external collaborators (the DFX engine `libdfx`, OpenCV video
decoding, the face-tracking JSON file) are modelled as oracles inside `Env`:
their answers per frame are arbitrary parameters, so every theorem quantifies
over all possible behaviours of those collaborators, while the orchestration
logic itself (the loop of lines 144-223 and the setup of lines 109-139) is
translated line by line.
-/

attribute [local semireducible] Rat.mul Rat.inv Rat.add Rat.sub

namespace Dfx

/-- The `math.ceil` of an exact rational, as used at line 118: the smallest
integer not below the argument, computed from the reduced fraction. -/
def mathCeil (q : ℚ) : ℤ := -Rat.floor (-q)

/-- The engine states used by `dfxexample.py` (`dfx.CollectorState`). -/
inductive CollectorState where
  | UNINITIALIZED
  | COLLECTING
  | CHUNKREADY
  | COMPLETED
  | ERROR
deriving DecidableEq, Repr

/-- A chunk payload as read by `savePayload` (fields of lines 40-50 plus the
two raw byte blobs written at lines 55-64).  Float fields are modelled as
rationals, byte strings as lists of bytes. -/
structure ChunkPayload where
  valid : Bool
  start_frame : Nat
  end_frame : Nat
  chunk_number : Nat
  number_chunks : Nat
  first_chunk_start_time_s : ℚ
  start_time_s : ℚ
  end_time_s : ℚ
  duration_s : ℚ
  payload_data : List Nat
  metadata : List Nat
deriving DecidableEq, Repr

/-- One pose point of the face-tracking data (`addPosePoint`, lines 100-106). -/
structure PosePoint where
  x : ℚ
  y : ℚ
  valid : Bool
  estimated : Bool
  quality : ℚ
deriving DecidableEq, Repr

/-- One frame's face-tracking entry, as consumed by `createDFXFace`
(lines 93-107): id, rect, pose/detected flags and the pose points. -/
structure FaceData where
  id : String
  rectX : ℚ
  rectY : ℚ
  rectW : ℚ
  rectH : ℚ
  poseValid : Bool
  detected : Bool
  points : List (String × PosePoint)
deriving DecidableEq, Repr

/-- The environment of one run: everything `doExtraction` observes from the
outside world.  The engine is the black box `libdfx`; its per-call answers
(`submitResult` for `extractChannels`, `chunkData` for the mid-loop
`getChunkData`, `finalChunk` for the end-of-stream `getChunkData`) are
oracles indexed by the frame number at which the call happens. -/
structure Env where
  /-- Result of `factory.initializeStudyFromFile(studyPath)` (line 73). -/
  studyInitOK : Bool
  /-- whether `collector.getCollectorState() == ERROR` right after creation (line 81). -/
  collectorCreatedInError : Bool
  /-- number of frames `videocap.read()` yields before returning `None`. -/
  numFrames : Nat
  /-- Value of `int(videocap.get(cv2.CAP_PROP_FRAME_COUNT))` (line 116), best-effort metadata. -/
  videoDuration_frames : Nat
  /-- Lookup `videofaces[str(frameNumber)]` (line 170): `none` models a `KeyError`. -/
  face : Nat → Option FaceData
  /-- result of `collector.extractChannels(frame)` (line 179) at a frame number. -/
  submitResult : Nat → CollectorState
  /-- result of `collector.getChunkData()` (line 183) after the submit at a frame number. -/
  chunkData : Nat → Option ChunkPayload
  /-- result of `collector.getChunkData()` at end of stream (line 149). -/
  finalChunk : Option ChunkPayload
  /-- whether `cv2.waitKey(1) & 0xFF == ord('q')` fires (line 221) at a frame number. -/
  cancelAt : Nat → Bool

/-- Observable actions of one run, in program order. -/
inductive Event where
  /-- Call `collector.extractChannels(frame)` happened for frame `n`, whose
  `dfx.VideoFrame` carried `timestamp_ns` (line 162-163) and which carried a
  marker iff `marker` (lines 174-175). -/
  | submitted (n : Nat) (timestamp_ns : ℚ) (marker : Bool)
  /-- the mid-loop `collector.getChunkData()` (line 183) at frame `n` returned `p`. -/
  | chunkRetrieved (n : Nat) (p : Option ChunkPayload)
  /-- Call `savePayload(chunkPayload, output)` happened (line 153 or 187). -/
  | saved (p : ChunkPayload)
  /-- the end-of-stream `collector.getChunkData()` (line 149) returned `p`. -/
  | finalFlush (p : Option ChunkPayload)
  /-- the `COMPLETED` branch printed and broke out of the loop at frame `n` (lines 191-195). -/
  | completedAt (n : Nat)
  /-- the every-10th-frame rendering block ran at frame `n` (lines 198-220). -/
  | rendered (n : Nat)
  /-- the `q`-key check fired at frame `n` (lines 221-223). -/
  | cancelledAt (n : Nat)
deriving DecidableEq, Repr

/-- The Python exception that can escape the loop: `videofaces[str(frameNumber)]`
raises `KeyError` when the face-tracking data has no entry for the frame. -/
inductive RunExn where
  | keyErrorFace (frameNumber : Nat)
deriving DecidableEq, Repr

/-- How the ingestion loop ends: via `break` with the final value of the
`success` flag, or by an uncaught exception propagating out. -/
inductive Outcome where
  | finished (success : Bool)
  | raised (e : RunExn)
deriving DecidableEq, Repr

/-- Predicate `Outcome.isFinished o` is true when the loop ended via `break`/end-of-stream
rather than by a propagating exception. -/
def Outcome.isFinished : Outcome → Bool
  | .finished _ => true
  | .raised _ => false

/-- Result of the ingestion loop: its outcome and the events it performed. -/
structure RunOut where
  outcome : Outcome
  events : List Event
deriving DecidableEq, Repr

/-- The `savePayload` guard of lines 150-153 / 184-187: the payload is saved
exactly when a chunk was returned and an output folder was supplied. -/
def saveEvents (hasOutput : Bool) : Option ChunkPayload → List Event
  | some p => if hasOutput then [Event.saved p] else []
  | none => []

/-- The ingestion loop of `doExtraction` (lines 144-223).  `d` is
`durationOneFrame_ns`; the first `Nat` argument is the number of frames
`videocap.read()` will still deliver, the second is the frame number
(`CAP_PROP_POS_FRAMES` counts from 1) the next successful read produces. -/
def ingestLoop (env : Env) (hasOutput : Bool) (d : ℚ) : Nat → Nat → RunOut
  | 0, _ =>
    -- `image is None` (line 147): final flush, then `success = True; break`.
    { outcome := .finished true
      events := Event.finalFlush env.finalChunk :: saveEvents hasOutput env.finalChunk }
  | k + 1, fn =>
    match env.face fn with
    | none =>
      -- `videofaces[str(frameNumber)]` raises KeyError (line 170); it is
      -- uncaught, so the loop ends and the exception propagates.
      { outcome := .raised (.keyErrorFace fn), events := [] }
    | some _ =>
      let subEv := Event.submitted fn (fn * d) (fn == 1000)
      let result := env.submitResult fn
      let chunkEvs :=
        if result = .CHUNKREADY ∨ result = .COMPLETED then
          Event.chunkRetrieved fn (env.chunkData fn) ::
            saveEvents hasOutput (env.chunkData fn)
        else []
      if result = .COMPLETED then
        { outcome := .finished true
          events := subEv :: (chunkEvs ++ [Event.completedAt fn]) }
      else if fn % 10 = 0 then
        if env.cancelAt fn then
          { outcome := .finished false
            events := subEv :: (chunkEvs ++ [Event.rendered fn, Event.cancelledAt fn]) }
        else
          let rest := ingestLoop env hasOutput d k (fn + 1)
          { outcome := rest.outcome
            events := subEv :: (chunkEvs ++ Event.rendered fn :: rest.events) }
      else
        let rest := ingestLoop env hasOutput d k (fn + 1)
        { outcome := rest.outcome
          events := subEv :: (chunkEvs ++ rest.events) }

/-- The ways `doExtraction` aborts before the loop starts: `sys.exit(1)` at
lines 76 and 84, and the `ZeroDivisionError` Python raises at line 112 when
`videocap.get(cv2.CAP_PROP_FPS)` returned `0.0`. -/
inductive SetupError where
  | studyInitFailed
  | collectorCreationFailed
  | zeroDivisionError
deriving DecidableEq, Repr

/-- Constant `chunkDuration_s = 5` (line 115). -/
def chunkDuration_s : ℚ := 5

/-- Everything `doExtraction` computed or did, for a run that reached the loop. -/
structure ExtractionResult where
  targetFPS : ℚ
  durationOneFrame_ns : ℚ
  videoDuration_s : ℚ
  numberChunks : ℤ
  run : RunOut
  /-- whether `videocap.release()` (line 231) executed.  It stands after the
  loop with no `try/finally`, so it runs exactly when the loop ended via
  `break` and is skipped when an exception propagates out of the loop. -/
  released : Bool
deriving DecidableEq, Repr

/-- Shallow embedding of `doExtraction` (lines 67-232).  `targetFPS` is what
`videocap.get(cv2.CAP_PROP_FPS)` returned; `hasOutput` is whether the
optional `output` argument was supplied. -/
def doExtraction (targetFPS : ℚ) (env : Env) (hasOutput : Bool) :
    Except SetupError ExtractionResult :=
  if ¬ env.studyInitOK then .error .studyInitFailed
  else if env.collectorCreatedInError then .error .collectorCreationFailed
  else if targetFPS = 0 then .error .zeroDivisionError
  else
    let durationOneFrame_ns : ℚ := 1000000000 / targetFPS
    let videoDuration_s : ℚ := (env.videoDuration_frames : ℚ) / targetFPS
    let numberChunks : ℤ := mathCeil (videoDuration_s / chunkDuration_s)
    let run := ingestLoop env hasOutput durationOneFrame_ns env.numFrames 1
    .ok { targetFPS := targetFPS
          durationOneFrame_ns := durationOneFrame_ns
          videoDuration_s := videoDuration_s
          numberChunks := numberChunks
          run := run
          released := run.outcome.isFinished }

/-- Outcome of a run, `none` when setup aborted before the loop. -/
def resultOutcome : Except SetupError ExtractionResult → Option Outcome
  | .ok r => some r.run.outcome
  | .error _ => none

/-- Events of a run; setup aborts before the loop, hence before any event. -/
def resultEvents : Except SetupError ExtractionResult → List Event
  | .ok r => r.run.events
  | .error _ => []

/-- Whether `videocap.release()` ran, `none` when setup aborted before the
capture even existed in a configured state. -/
def resultReleased : Except SetupError ExtractionResult → Option Bool
  | .ok r => some r.released
  | .error _ => none

/-- The `numberChunks` the collector was configured with (line 123). -/
def resultNumberChunks : Except SetupError ExtractionResult → Option ℤ
  | .ok r => some r.numberChunks
  | .error _ => none

/-- A frame iteration is `good` when it neither raises (face entry present),
nor breaks out of the loop (submit does not answer `COMPLETED`, and the
every-10th-frame `q`-key check does not fire). -/
def goodFrame (env : Env) (j : Nat) : Bool :=
  (env.face j).isSome && !(env.submitResult j == .COMPLETED)
    && !(j % 10 == 0 && env.cancelAt j)

/-- Events that can only originate in loop iterations at frames before `fn0`:
frame-stamped events carry their frame number; a save is tied to the
retrieval just before it; a final flush never happens inside an iteration. -/
def eventBefore (fn0 : Nat) : Event → Bool
  | .submitted n _ _ => n < fn0
  | .chunkRetrieved n _ => n < fn0
  | .saved _ => true
  | .finalFlush _ => false
  | .completedAt n => n < fn0
  | .rendered n => n < fn0
  | .cancelledAt n => n < fn0

/-- Whether an event is the end-of-stream chunk retrieval. -/
def isFinalFlush : Event → Bool
  | .finalFlush _ => true
  | _ => false

/-- Number of end-of-stream chunk retrievals in a trace. -/
def countFinalFlush (evs : List Event) : Nat := evs.countP isFinalFlush

/-- Whether an event is a `savePayload` call. -/
def isSaveEvent : Event → Bool
  | .saved _ => true
  | _ => false

/-- The same environment with every `ERROR` answer of `extractChannels`
replaced by `COLLECTING`. -/
def replaceErrorWithCollecting (env : Env) : Env :=
  { env with
    submitResult := fun n =>
      if env.submitResult n = .ERROR then .COLLECTING else env.submitResult n }

/-- A concrete face-tracking entry for test environments. -/
def faceA : FaceData :=
  { id := "a", rectX := 0, rectY := 0, rectW := 10, rectH := 10,
    poseValid := true, detected := true, points := [] }

/-- A concrete chunk payload for test environments. -/
def chunkA : ChunkPayload :=
  { valid := true, start_frame := 0, end_frame := 9, chunk_number := 0,
    number_chunks := 1, first_chunk_start_time_s := 0, start_time_s := 0,
    end_time_s := 5, duration_s := 5, payload_data := [1], metadata := [2] }

/-- A benign environment: `n` readable frames, all face entries present, the
engine keeps collecting, the final flush returns `chunkA`, no `q` key press. -/
def benignEnv (n : Nat) : Env :=
  { studyInitOK := true
    collectorCreatedInError := false
    numFrames := n
    videoDuration_frames := n
    face := fun _ => some faceA
    submitResult := fun _ => .COLLECTING
    chunkData := fun _ => none
    finalChunk := some chunkA
    cancelAt := fun _ => false }

/-- Two readable frames; every `extractChannels` call answers `ERROR`. -/
def errEnv : Env := { benignEnv 2 with submitResult := fun _ => .ERROR }

/-- Two readable frames; the face-tracking data has no entry for frame 1. -/
def missEnv1 : Env :=
  { benignEnv 2 with face := fun n => if n = 1 then none else some faceA }

/-- Two readable frames; the face-tracking data has no entry for frame 2. -/
def missEnv2 : Env :=
  { benignEnv 2 with face := fun n => if n = 2 then none else some faceA }

/-- One readable frame; the `q` key is pressed from the very start. -/
def cancelEnv1 : Env := { benignEnv 1 with cancelAt := fun _ => true }

/-- Ten readable frames; the `q` key is pressed during frame 10. -/
def cancelEnv10 : Env := { benignEnv 10 with cancelAt := fun n => n == 10 }

theorem mathCeil_eq_ceil (q : ℚ) : mathCeil q = ⌈q⌉ := by
  have hfl : (⌊-q⌋ : ℤ) = Rat.floor (-q) := rfl
  rw [mathCeil, ← hfl, Int.floor_neg, neg_neg]

theorem eventBefore_saveEvents (fn0 : Nat) (b : Bool) (p? : Option ChunkPayload) :
    ∀ e ∈ saveEvents b p?, eventBefore fn0 e = true := by
  rcases p? with _ | p <;> rcases b <;> simp [saveEvents, eventBefore]

/-- Splitting `goodFrame` into its three conjuncts. -/
theorem goodFrame_iff (env : Env) (j : Nat) :
    goodFrame env j = true ↔
      (env.face j).isSome = true ∧ env.submitResult j ≠ .COMPLETED ∧
        (j % 10 = 0 → env.cancelAt j = false) := by
  simp [goodFrame, and_assoc, Decidable.not_and_iff_or_not]
  try tauto

/-- Running the loop from frame `fn` with every frame up to (excluding) `fn0`
good reaches frame `fn0` with the corresponding fuel: the run decomposes into
a prefix of events all attributable to frames before `fn0`, followed by the
run from `fn0`, whose outcome is the whole run's outcome. -/
theorem ingestLoop_reach (env : Env) (hasOutput : Bool) (d : ℚ) :
    ∀ k fn fn0 : Nat, fn ≤ fn0 → fn0 ≤ fn + k →
      (∀ j, fn ≤ j → j < fn0 → goodFrame env j = true) →
      ∃ E : List Event, (∀ e ∈ E, eventBefore fn0 e = true) ∧
        ingestLoop env hasOutput d k fn =
          { outcome := (ingestLoop env hasOutput d (k - (fn0 - fn)) fn0).outcome
            events := E ++ (ingestLoop env hasOutput d (k - (fn0 - fn)) fn0).events } := by
  intro k
  induction k with
  | zero =>
    intro fn fn0 h1 h2 _
    obtain rfl : fn0 = fn := le_antisymm (by omega) h1
    exact ⟨[], by simp, by simp⟩
  | succ k ih =>
    intro fn fn0 h1 h2 h3
    rcases eq_or_lt_of_le h1 with rfl | hlt
    · exact ⟨[], by simp, by simp⟩
    · have hg := (goodFrame_iff env fn).mp (h3 fn le_rfl hlt)
      obtain ⟨hface, hnc, hcan⟩ := hg
      obtain ⟨fd, hfd⟩ := Option.isSome_iff_exists.mp hface
      obtain ⟨E, hE, heq⟩ :=
        ih (fn + 1) fn0 hlt (by omega) (fun j hj1 hj2 => h3 j (by omega) hj2)
      have hk : k - (fn0 - (fn + 1)) = (k + 1) - (fn0 - fn) := by omega
      rw [hk] at heq
      by_cases hmod : fn % 10 = 0
      · have hcanf : env.cancelAt fn = false := hcan hmod
        refine ⟨Event.submitted fn (fn * d) (fn == 1000) ::
          ((if env.submitResult fn = .CHUNKREADY ∨ env.submitResult fn = .COMPLETED then
              Event.chunkRetrieved fn (env.chunkData fn) ::
                saveEvents hasOutput (env.chunkData fn)
            else []) ++ Event.rendered fn :: E), ?_, ?_⟩
        · intro e he
          simp only [List.mem_cons, List.mem_append] at he
          rcases he with rfl | he
          · simp [eventBefore, hlt]
          · rcases he with he | he
            · split at he
              · simp only [List.mem_cons] at he
                rcases he with rfl | he
                · simp [eventBefore, hlt]
                · exact eventBefore_saveEvents fn0 hasOutput (env.chunkData fn) e he
              · exact absurd he (List.not_mem_nil e)
            · rcases he with rfl | he
              · simp [eventBefore, hlt]
              · exact hE e he
        · simp [ingestLoop, hfd, hnc, hmod, hcanf, heq, List.append_assoc]
      · refine ⟨Event.submitted fn (fn * d) (fn == 1000) ::
          ((if env.submitResult fn = .CHUNKREADY ∨ env.submitResult fn = .COMPLETED then
              Event.chunkRetrieved fn (env.chunkData fn) ::
                saveEvents hasOutput (env.chunkData fn)
            else []) ++ E), ?_, ?_⟩
        · intro e he
          simp only [List.mem_cons, List.mem_append] at he
          rcases he with rfl | he
          · simp [eventBefore, hlt]
          · rcases he with he | he
            · split at he
              · simp only [List.mem_cons] at he
                rcases he with rfl | he
                · simp [eventBefore, hlt]
                · exact eventBefore_saveEvents fn0 hasOutput (env.chunkData fn) e he
              · exact absurd he (List.not_mem_nil e)
            · exact hE e he
        · simp [ingestLoop, hfd, hnc, hmod, heq, List.append_assoc]

/-- When the pre-loop guards pass, `doExtraction` is the loop together with
the values computed at lines 109-123. -/
theorem doExtraction_ok (targetFPS : ℚ) (env : Env) (hasOutput : Bool)
    (hstudy : env.studyInitOK = true) (hcoll : env.collectorCreatedInError = false)
    (hfps : targetFPS ≠ 0) :
    doExtraction targetFPS env hasOutput =
      .ok { targetFPS := targetFPS
            durationOneFrame_ns := 1000000000 / targetFPS
            videoDuration_s := (env.videoDuration_frames : ℚ) / targetFPS
            numberChunks :=
              mathCeil (((env.videoDuration_frames : ℚ) / targetFPS) / chunkDuration_s)
            run := ingestLoop env hasOutput (1000000000 / targetFPS) env.numFrames 1
            released :=
              (ingestLoop env hasOutput (1000000000 / targetFPS)
                env.numFrames 1).outcome.isFinished } := by
  simp [doExtraction, hstudy, hcoll, hfps]

/-- Bridging the bounded `List.range` form of the per-frame hypotheses to the
form the reach lemma consumes. -/
theorem goodFrame_of_range {env : Env} {m : Nat}
    (h : ∀ j ∈ List.range m, goodFrame env (j + 1) = true) :
    ∀ j, 1 ≤ j → j < m + 1 → goodFrame env j = true := by
  intro j hj1 hj2
  have hh := h (j - 1) (List.mem_range.mpr (by omega))
  have hj : j - 1 + 1 = j := by omega
  rwa [hj] at hh

/-- Events attributable to a loop iteration are never the final flush. -/
theorem isFinalFlush_eq_false {fn0 : Nat} {e : Event}
    (h : eventBefore fn0 e = true) : isFinalFlush e = false := by
  cases e <;> simp [eventBefore, isFinalFlush] at h ⊢

/-- Calls to `savePayload` are not final flushes. -/
theorem countFinalFlush_saveEvents (b : Bool) (p? : Option ChunkPayload) :
    countFinalFlush (saveEvents b p?) = 0 := by
  rcases p? with _ | p <;> rcases b <;>
    simp [saveEvents, countFinalFlush, isFinalFlush]

/-- Function `doExtraction` either aborts in setup, with no events, or runs the loop
from frame 1 with fuel `numFrames` and per-frame duration `1e9 / targetFPS`. -/
theorem resultEvents_cases (targetFPS : ℚ) (env : Env) (hasOutput : Bool) :
    resultEvents (doExtraction targetFPS env hasOutput) = [] ∨
    resultEvents (doExtraction targetFPS env hasOutput) =
      (ingestLoop env hasOutput (1000000000 / targetFPS) env.numFrames 1).events := by
  unfold doExtraction
  repeat' split
  all_goals first
  | exact Or.inl rfl
  | exact Or.inr rfl

/-- No submit event sits in the chunk-retrieval block of an iteration. -/
theorem submitted_not_mem_chunkEvs {hasOutput : Bool} {p? : Option ChunkPayload}
    {fn n : Nat} {ts : ℚ} {m : Bool} {c : Prop} [Decidable c] :
    Event.submitted n ts m ∉
      (if c then Event.chunkRetrieved fn p? :: saveEvents hasOutput p? else []) := by
  split
  · intro h
    simp only [List.mem_cons] at h
    rcases h with h | h
    · exact Event.noConfusion h
    · rcases p? with _ | p <;> rcases hasOutput <;> simp [saveEvents] at h
  · exact List.not_mem_nil _

/-- Every submit event of the loop carries timestamp `frameNumber * d` and a
marker exactly at frame 1000. -/
theorem ingestLoop_submitted (env : Env) (hasOutput : Bool) (d : ℚ) :
    ∀ k fn n ts m, Event.submitted n ts m ∈ (ingestLoop env hasOutput d k fn).events →
      ts = n * d ∧ m = (n == 1000) := by
  intro k
  induction k with
  | zero =>
    intro fn n ts m h
    rcases hc : env.finalChunk with _ | p <;> rcases hasOutput <;>
      simp [ingestLoop, saveEvents, hc] at h
  | succ k ih =>
    intro fn n ts m h
    rcases hf : env.face fn with _ | fd
    · simp [ingestLoop, hf] at h
    · simp only [ingestLoop, hf] at h
      split at h
      · simp only [List.mem_cons, List.mem_append, List.not_mem_nil, or_false] at h
        rcases h with h | h | h
        · rw [Event.submitted.injEq] at h
          obtain ⟨rfl, rfl, rfl⟩ := h
          exact ⟨rfl, rfl⟩
        · exact absurd h submitted_not_mem_chunkEvs
        · exact Event.noConfusion h
      · split at h
        · split at h
          · dsimp only at h
            simp only [List.mem_cons, List.mem_append, List.not_mem_nil, or_false] at h
            rcases h with h | h | h | h
            · rw [Event.submitted.injEq] at h
              obtain ⟨rfl, rfl, rfl⟩ := h
              exact ⟨rfl, rfl⟩
            · exact absurd h submitted_not_mem_chunkEvs
            · exact Event.noConfusion h
            · exact Event.noConfusion h
          · simp only [List.mem_cons, List.mem_append] at h
            rcases h with h | h | h | h
            · rw [Event.submitted.injEq] at h
              obtain ⟨rfl, rfl, rfl⟩ := h
              exact ⟨rfl, rfl⟩
            · exact absurd h submitted_not_mem_chunkEvs
            · exact Event.noConfusion h
            · exact ih (fn + 1) n ts m h
        · simp only [List.mem_cons, List.mem_append] at h
          rcases h with h | h | h
          · rw [Event.submitted.injEq] at h
            obtain ⟨rfl, rfl, rfl⟩ := h
            exact ⟨rfl, rfl⟩
          · exact absurd h submitted_not_mem_chunkEvs
          · exact ih (fn + 1) n ts m h

/-- Dropping the save events from a chunk-retrieval block gives the block of
a run without an output folder. -/
theorem filter_saveEvents (p? : Option ChunkPayload) :
    (saveEvents true p?).filter (fun e => !isSaveEvent e) = [] ∧ saveEvents false p? = [] := by
  rcases p? with _ | p <;> simp [saveEvents, isSaveEvent]

/-- Running the loop without an output folder performs exactly the same
events minus the `savePayload` calls, with the same outcome. -/
theorem ingestLoop_noOutput (env : Env) (d : ℚ) :
    ∀ k fn, ingestLoop env false d k fn =
      { outcome := (ingestLoop env true d k fn).outcome
        events := (ingestLoop env true d k fn).events.filter (fun e => !isSaveEvent e) } := by
  intro k
  induction k with
  | zero =>
    intro fn
    rcases hc : env.finalChunk with _ | p <;>
      simp [ingestLoop, saveEvents, hc, isSaveEvent]
  | succ k ih =>
    intro fn
    rcases hf : env.face fn with _ | fd
    · simp [ingestLoop, hf]
    · rcases hq : env.chunkData fn with _ | p <;>
        by_cases hcm : env.submitResult fn = .COMPLETED <;>
        by_cases hcr : env.submitResult fn = .CHUNKREADY <;>
        by_cases hmod : fn % 10 = 0 <;>
        rcases hcv : env.cancelAt fn with _ | _ <;>
        simp [ingestLoop, hf, hq, hcm, hcr, hmod, hcv, saveEvents, isSaveEvent, ih]

/-- The loop never distinguishes an `ERROR` answer from a `COLLECTING` one:
line 182 tests only for `CHUNKREADY`/`COMPLETED`. -/
theorem ingestLoop_replaceError (env : Env) (hasOutput : Bool) (d : ℚ) :
    ∀ k fn, ingestLoop (replaceErrorWithCollecting env) hasOutput d k fn =
      ingestLoop env hasOutput d k fn := by
  intro k
  induction k with
  | zero => intro fn; rfl
  | succ k ih =>
    intro fn
    have hfaceEq : (replaceErrorWithCollecting env).face = env.face := rfl
    have hcdEq : (replaceErrorWithCollecting env).chunkData = env.chunkData := rfl
    have hcaEq : (replaceErrorWithCollecting env).cancelAt = env.cancelAt := rfl
    rcases hf : env.face fn with _ | fd
    · simp [ingestLoop, hfaceEq, hf]
    · rcases hs : env.submitResult fn
      case ERROR =>
        have h2 : (replaceErrorWithCollecting env).submitResult fn = .COLLECTING := by
          simp [replaceErrorWithCollecting, hs]
        simp [ingestLoop, hfaceEq, hcdEq, hcaEq, hf, hs, h2, ih]
      all_goals
        have h2 : (replaceErrorWithCollecting env).submitResult fn = env.submitResult fn := by
          simp [replaceErrorWithCollecting, hs]
        rw [hs] at h2
        simp [ingestLoop, hfaceEq, hcdEq, hcaEq, hf, hs, h2, ih]

/-- C2: for every configuration with `chunkDurationSeconds > 0` and
`totalDurationSeconds >= 0`, the engine is configured with
`numberChunks = ceil(totalDurationSeconds / chunkDurationSeconds)` where
`totalDurationSeconds` is the metadata frame count divided by `targetFPS`;
the value is a function of pre-loop data only (last conjunct: it does not
depend on anything the loop observes), hence never changes afterwards. -/
theorem numberChunks_eq_ceil (targetFPS : ℚ) (env : Env) (hasOutput : Bool)
    (hstudy : env.studyInitOK = true) (hcoll : env.collectorCreatedInError = false)
    (hfps : 0 < targetFPS) :
    (0 : ℚ) < chunkDuration_s ∧
    (0 : ℚ) ≤ (env.videoDuration_frames : ℚ) / targetFPS ∧
    resultNumberChunks (doExtraction targetFPS env hasOutput) =
      some ⌈((env.videoDuration_frames : ℚ) / targetFPS) / chunkDuration_s⌉ ∧
    (∀ (env' : Env) (hasOutput' : Bool),
      env'.studyInitOK = true → env'.collectorCreatedInError = false →
      env'.videoDuration_frames = env.videoDuration_frames →
      resultNumberChunks (doExtraction targetFPS env' hasOutput') =
        resultNumberChunks (doExtraction targetFPS env hasOutput)) := by
  refine ⟨by norm_num [chunkDuration_s], by positivity, ?_, ?_⟩
  · rw [doExtraction_ok targetFPS env hasOutput hstudy hcoll (ne_of_gt hfps)]
    simp [resultNumberChunks, mathCeil_eq_ceil]
  · intro env' hasOutput' hstudy' hcoll' hframes'
    rw [doExtraction_ok targetFPS env hasOutput hstudy hcoll (ne_of_gt hfps),
      doExtraction_ok targetFPS env' hasOutput' hstudy' hcoll' (ne_of_gt hfps)]
    simp [resultNumberChunks, hframes']

/-- Witness for C2 at a concrete input: 130 frames of metadata at 30 fps with
the fixed 5-second chunks. -/
theorem numberChunks_eq_ceil_witness :
    resultNumberChunks (doExtraction 30 (benignEnv 130) true) =
      some ⌈(((benignEnv 130).videoDuration_frames : ℚ) / 30) / chunkDuration_s⌉ :=
  (numberChunks_eq_ceil 30 (benignEnv 130) true rfl rfl (by decide)).2.2.1

/-- C9: when the opened video reports `targetFPS = 0` (as when the file fails
to open), line 112 divides by zero; the run aborts with the unguarded
arithmetic error before any frame is read or submitted (no events). -/
theorem fps_zero_aborts (env : Env) (hasOutput : Bool)
    (hstudy : env.studyInitOK = true) (hcoll : env.collectorCreatedInError = false) :
    doExtraction 0 env hasOutput = .error .zeroDivisionError ∧
    resultEvents (doExtraction 0 env hasOutput) = [] := by
  have h : doExtraction 0 env hasOutput = .error .zeroDivisionError := by
    simp [doExtraction, hstudy, hcoll]
  exact ⟨h, by rw [h]; rfl⟩

/-- Witness for C9 at a concrete environment. -/
theorem fps_zero_aborts_witness :
    doExtraction 0 (benignEnv 3) true = .error .zeroDivisionError ∧
    resultEvents (doExtraction 0 (benignEnv 3) true) = [] :=
  fps_zero_aborts (benignEnv 3) true rfl rfl

/-- C6 counterexample: with the face-tracking entry for frame 1 missing, the
`KeyError` propagates out of `doExtraction` and `videocap.release()`
(line 231, not protected by any `try/finally`) is skipped — so the decoding
resource is not released on this input-error exit path. -/
theorem release_skipped_on_exn_cex :
    resultOutcome (doExtraction 30 missEnv1 true) =
      some (.raised (.keyErrorFace 1)) ∧
    resultReleased (doExtraction 30 missEnv1 true) = some false := by decide

/-- C6 amended: the capture is released exactly on the exit paths on which
the loop ends via `break` (end-of-stream, `COMPLETED`, `q`-key interrupt);
on a propagating exception (missing face entry) the release is skipped. -/
theorem released_iff_loop_finished (targetFPS : ℚ) (env : Env) (hasOutput : Bool) :
    resultReleased (doExtraction targetFPS env hasOutput) =
      Option.map Outcome.isFinished (resultOutcome (doExtraction targetFPS env hasOutput)) := by
  unfold doExtraction
  repeat' split
  all_goals rfl

/-- C1 counterexample: an engine answering `ERROR` on every submit does not
stop the loop — frame 2 is still submitted after frame 1's `ERROR`, the
end-of-stream final flush still runs (exactly once), and the run is marked
successful, contradicting "stop immediately, mark failed, no flush". -/
theorem errorState_not_fatal_cex :
    resultOutcome (doExtraction 30 errEnv true) = some (.finished true) ∧
    Event.submitted 2 ((2 : Nat) * ((1000000000 : ℚ) / 30)) false ∈
      resultEvents (doExtraction 30 errEnv true) ∧
    Event.finalFlush (some chunkA) ∈ resultEvents (doExtraction 30 errEnv true) ∧
    countFinalFlush (resultEvents (doExtraction 30 errEnv true)) = 1 := by decide

/-- C1 amended: the loop never inspects `ERROR` at all — line 182 tests only
`CHUNKREADY`/`COMPLETED`, so a run behaves identically whether the engine
answers `ERROR` or `COLLECTING`: the loop continues, the run is not marked
failed, and the final flush still happens at end-of-stream. -/
theorem errorState_treated_as_collecting (targetFPS : ℚ) (env : Env) (hasOutput : Bool) :
    doExtraction targetFPS (replaceErrorWithCollecting env) hasOutput =
      doExtraction targetFPS env hasOutput := by
  have h1 : (replaceErrorWithCollecting env).studyInitOK = env.studyInitOK := rfl
  have h2 : (replaceErrorWithCollecting env).collectorCreatedInError =
      env.collectorCreatedInError := rfl
  have h3 : (replaceErrorWithCollecting env).videoDuration_frames =
      env.videoDuration_frames := rfl
  have h4 : (replaceErrorWithCollecting env).numFrames = env.numFrames := rfl
  simp only [doExtraction, h1, h2, h3, h4, ingestLoop_replaceError]

/-- C8: omitting the output folder only removes the `savePayload` calls;
outcome (loop termination and the success flag), every other event (frame
reads and submissions, chunk retrievals, the final flush), the configured
`numberChunks` and the release behaviour are identical. -/
theorem output_omitted_identical (targetFPS : ℚ) (env : Env) :
    resultOutcome (doExtraction targetFPS env false) =
      resultOutcome (doExtraction targetFPS env true) ∧
    resultEvents (doExtraction targetFPS env false) =
      (resultEvents (doExtraction targetFPS env true)).filter (fun e => !isSaveEvent e) ∧
    resultNumberChunks (doExtraction targetFPS env false) =
      resultNumberChunks (doExtraction targetFPS env true) ∧
    resultReleased (doExtraction targetFPS env false) =
      resultReleased (doExtraction targetFPS env true) := by
  rcases hst : env.studyInitOK with _ | _
  · refine ⟨?_, ?_, ?_, ?_⟩ <;>
      simp [doExtraction, hst, resultOutcome, resultEvents, resultNumberChunks,
        resultReleased]
  · rcases hce : env.collectorCreatedInError with _ | _
    · by_cases hfz : targetFPS = 0
      · refine ⟨?_, ?_, ?_, ?_⟩ <;>
          simp [doExtraction, hst, hce, hfz, resultOutcome, resultEvents,
            resultNumberChunks, resultReleased]
      · rw [doExtraction_ok targetFPS env false hst hce hfz,
          doExtraction_ok targetFPS env true hst hce hfz,
          ingestLoop_noOutput env (1000000000 / targetFPS) env.numFrames 1]
        exact ⟨rfl, rfl, rfl, rfl⟩
    · refine ⟨?_, ?_, ?_, ?_⟩ <;>
        simp [doExtraction, hst, hce, resultOutcome, resultEvents,
          resultNumberChunks, resultReleased]

/-- C4: every frame submitted to the engine carries
`timestamp_ns = frameNumber * (1e9 / targetFPS)` (lines 112 and 162-163);
hence consecutive frame numbers differ in timestamp by exactly
`1e9 / targetFPS`, and the timestamp grows strictly with the frame number. -/
theorem submitted_timestamps_exact (targetFPS : ℚ) (env : Env) (hasOutput : Bool)
    (hfps : 0 < targetFPS) :
    (∀ (n : Nat) (ts : ℚ) (m : Bool),
       Event.submitted n ts m ∈ resultEvents (doExtraction targetFPS env hasOutput) →
       ts = (n : ℚ) * (1000000000 / targetFPS)) ∧
    (∀ n : Nat, ((n + 1 : Nat) : ℚ) * (1000000000 / targetFPS) -
       (n : ℚ) * (1000000000 / targetFPS) = 1000000000 / targetFPS) ∧
    (∀ n1 n2 : Nat, n1 < n2 →
       (n1 : ℚ) * (1000000000 / targetFPS) < (n2 : ℚ) * (1000000000 / targetFPS)) := by
  refine ⟨?_, ?_, ?_⟩
  · intro n ts m h
    rcases resultEvents_cases targetFPS env hasOutput with he | he
    · rw [he] at h
      exact absurd h (List.not_mem_nil _)
    · rw [he] at h
      exact (ingestLoop_submitted env hasOutput (1000000000 / targetFPS)
        env.numFrames 1 n ts m h).1
  · intro n
    push_cast
    ring
  · intro n1 n2 hlt
    have hd : (0 : ℚ) < 1000000000 / targetFPS := by positivity
    have hc : (n1 : ℚ) < (n2 : ℚ) := by exact_mod_cast hlt
    exact mul_lt_mul_of_pos_right hc hd

/-- Witness for C4 at 30 fps: consecutive step and monotonicity at 1 < 2. -/
theorem submitted_timestamps_exact_witness :
    (((1 + 1 : Nat) : ℚ) * (1000000000 / 30) - ((1 : Nat) : ℚ) * (1000000000 / 30) =
      1000000000 / 30) ∧
    (((1 : Nat) : ℚ) * (1000000000 / 30) < ((2 : Nat) : ℚ) * (1000000000 / 30)) :=
  ⟨(submitted_timestamps_exact 30 (benignEnv 1) true (by decide)).2.1 1,
   (submitted_timestamps_exact 30 (benignEnv 1) true (by decide)).2.2 1 2 (by decide)⟩

/-- C10: lines 174-175 add the marker string to the frame whose number is
1000 and to no other frame, independently of chunk boundaries and of the
rest of the configuration. -/
theorem marker_iff_frame_1000 (targetFPS : ℚ) (env : Env) (hasOutput : Bool) :
    ∀ (n : Nat) (ts : ℚ) (m : Bool),
      Event.submitted n ts m ∈ resultEvents (doExtraction targetFPS env hasOutput) →
      (m = true ↔ n = 1000) := by
  intro n ts m h
  rcases resultEvents_cases targetFPS env hasOutput with he | he
  · rw [he] at h
    exact absurd h (List.not_mem_nil _)
  · rw [he] at h
    have hm := (ingestLoop_submitted env hasOutput (1000000000 / targetFPS)
      env.numFrames 1 n ts m h).2
    simp [hm]

/-- Witness for C10: the single submitted frame of a one-frame run carries no
marker, and indeed 1 is not 1000. -/
theorem marker_iff_frame_1000_witness :
    Event.submitted 1 (((1 : Nat) : ℚ) * (1000000000 / 30)) false ∈
      resultEvents (doExtraction 30 (benignEnv 1) true) ∧
    (false = true ↔ (1 : Nat) = 1000) :=
  ⟨by decide,
   marker_iff_frame_1000 30 (benignEnv 1) true 1
     (((1 : Nat) : ℚ) * (1000000000 / 30)) false (by decide)⟩

/-- No final-flush event sits in the chunk-retrieval block of an iteration. -/
theorem finalFlush_not_mem_chunkEvs {hasOutput : Bool} {p? p2 : Option ChunkPayload}
    {fn : Nat} {c : Prop} [Decidable c] :
    Event.finalFlush p2 ∉
      (if c then Event.chunkRetrieved fn p? :: saveEvents hasOutput p? else []) := by
  split
  · intro h
    simp only [List.mem_cons] at h
    rcases h with h | h
    · exact Event.noConfusion h
    · rcases p? with _ | p <;> rcases hasOutput <;> simp [saveEvents] at h
  · exact List.not_mem_nil _

/-- C3: when every frame iteration is good (face present, engine never says
`COMPLETED`, no `q`-key press), the source exhausts first; the run then does
exactly one final chunk retrieval, forwards its payload to `savePayload`
whenever one came back and an output folder exists, and is marked
successful — end-of-stream without `COMPLETED` is the normal outcome. -/
theorem endOfStream_final_flush (targetFPS : ℚ) (env : Env) (hasOutput : Bool)
    (hstudy : env.studyInitOK = true) (hcoll : env.collectorCreatedInError = false)
    (hfps : targetFPS ≠ 0)
    (hgood : ∀ j ∈ List.range env.numFrames, goodFrame env (j + 1) = true) :
    resultOutcome (doExtraction targetFPS env hasOutput) = some (.finished true) ∧
    countFinalFlush (resultEvents (doExtraction targetFPS env hasOutput)) = 1 ∧
    Event.finalFlush env.finalChunk ∈ resultEvents (doExtraction targetFPS env hasOutput) ∧
    (∀ p : ChunkPayload, env.finalChunk = some p → hasOutput = true →
       Event.saved p ∈ resultEvents (doExtraction targetFPS env hasOutput)) := by
  obtain ⟨E, hE, heq⟩ := ingestLoop_reach env hasOutput (1000000000 / targetFPS)
    env.numFrames 1 (env.numFrames + 1) (by omega) (by omega)
    (goodFrame_of_range hgood)
  have hk : env.numFrames - (env.numFrames + 1 - 1) = 0 := by omega
  rw [hk] at heq
  have hbase : ingestLoop env hasOutput (1000000000 / targetFPS) 0 (env.numFrames + 1) =
      { outcome := .finished true
        events := Event.finalFlush env.finalChunk ::
          saveEvents hasOutput env.finalChunk } := rfl
  rw [hbase] at heq
  rw [doExtraction_ok targetFPS env hasOutput hstudy hcoll hfps]
  refine ⟨?_, ?_, ?_, ?_⟩
  · simp [resultOutcome, heq]
  · simp only [resultEvents, heq, countFinalFlush, List.countP_append, List.countP_cons]
    have hzero : List.countP isFinalFlush E = 0 := by
      rw [List.countP_eq_zero]
      intro e he
      simp [isFinalFlush_eq_false (hE e he)]
    have hsz := countFinalFlush_saveEvents hasOutput env.finalChunk
    simp only [countFinalFlush] at hsz
    simp [hzero, hsz, isFinalFlush]
  · simp [resultEvents, heq]
  · intro p hp ho
    subst ho
    simp [resultEvents, heq, hp, saveEvents]

/-- Witness for C3: a three-frame run with a collecting engine. -/
theorem endOfStream_final_flush_witness :
    resultOutcome (doExtraction 30 (benignEnv 3) true) = some (.finished true) ∧
    countFinalFlush (resultEvents (doExtraction 30 (benignEnv 3) true)) = 1 ∧
    Event.saved chunkA ∈ resultEvents (doExtraction 30 (benignEnv 3) true) :=
  ⟨(endOfStream_final_flush 30 (benignEnv 3) true rfl rfl (by decide) (by decide)).1,
   (endOfStream_final_flush 30 (benignEnv 3) true rfl rfl (by decide) (by decide)).2.1,
   (endOfStream_final_flush 30 (benignEnv 3) true rfl rfl (by decide)
      (by decide)).2.2.2 chunkA rfl rfl⟩

/-- C5: if the face-tracking data lacks the entry for a frame the loop
reaches, the run ends by the propagating `KeyError` for that frame; every
chunk retrieval that happened belongs to an earlier frame, and no final
flush is performed — so no chunk beyond the one containing that frame is
forwarded to the sink. -/
theorem missingFace_aborts_run (targetFPS : ℚ) (env : Env) (hasOutput : Bool) (fn0 : Nat)
    (hstudy : env.studyInitOK = true) (hcoll : env.collectorCreatedInError = false)
    (hfps : targetFPS ≠ 0)
    (h1 : 1 ≤ fn0) (hle : fn0 ≤ env.numFrames)
    (hmiss : env.face fn0 = none)
    (hgood : ∀ j ∈ List.range (fn0 - 1), goodFrame env (j + 1) = true) :
    resultOutcome (doExtraction targetFPS env hasOutput) =
      some (.raised (.keyErrorFace fn0)) ∧
    (∀ (n : Nat) (p : Option ChunkPayload),
       Event.chunkRetrieved n p ∈ resultEvents (doExtraction targetFPS env hasOutput) →
       n < fn0) ∧
    (∀ p : Option ChunkPayload,
       Event.finalFlush p ∉ resultEvents (doExtraction targetFPS env hasOutput)) := by
  have hgood' : ∀ j, 1 ≤ j → j < fn0 → goodFrame env j = true := fun j hj1 hj2 =>
    goodFrame_of_range hgood j hj1 (by omega)
  obtain ⟨E, hE, heq⟩ := ingestLoop_reach env hasOutput (1000000000 / targetFPS)
    env.numFrames 1 fn0 h1 (by omega) hgood'
  have hk : env.numFrames - (fn0 - 1) = (env.numFrames - fn0) + 1 := by omega
  rw [hk] at heq
  have hstep : ingestLoop env hasOutput (1000000000 / targetFPS)
      ((env.numFrames - fn0) + 1) fn0 =
      { outcome := .raised (.keyErrorFace fn0), events := [] } := by
    simp [ingestLoop, hmiss]
  rw [hstep] at heq
  rw [doExtraction_ok targetFPS env hasOutput hstudy hcoll hfps]
  refine ⟨?_, ?_, ?_⟩
  · simp [resultOutcome, heq]
  · intro n p hmem
    simp only [resultEvents, heq, List.append_nil] at hmem
    have hb := hE _ hmem
    simpa [eventBefore] using hb
  · intro p hp
    simp only [resultEvents, heq, List.append_nil] at hp
    have hb := hE _ hp
    simp [eventBefore] at hb

/-- Witness for C5: the entry for frame 2 is missing in a two-frame run. -/
theorem missingFace_aborts_run_witness :
    resultOutcome (doExtraction 30 missEnv2 true) = some (.raised (.keyErrorFace 2)) ∧
    Event.finalFlush (some chunkA) ∉ resultEvents (doExtraction 30 missEnv2 true) :=
  ⟨(missingFace_aborts_run 30 missEnv2 true 2 rfl rfl (by decide) (by decide)
      (by decide) (by decide) (by decide)).1,
   (missingFace_aborts_run 30 missEnv2 true 2 rfl rfl (by decide) (by decide)
      (by decide) (by decide) (by decide)).2.2 (some chunkA)⟩

/-- C7 counterexample: with the `q` key held down from the start of a
one-frame run, frame 1 is processed without any cancellation check
(1 % 10 ≠ 0), the loop reaches end-of-stream, flushes, and the run is marked
successful — the signal is not checked once per frame iteration. -/
theorem cancel_not_checked_every_frame_cex :
    resultOutcome (doExtraction 30 cancelEnv1 true) = some (.finished true) ∧
    Event.cancelledAt 1 ∉ resultEvents (doExtraction 30 cancelEnv1 true) ∧
    Event.finalFlush (some chunkA) ∈ resultEvents (doExtraction 30 cancelEnv1 true) := by
  decide

/-- C7 amended: the cancellation signal is checked only on frames whose
number is divisible by 10 (line 198); when it fires there, the run is marked
failed/interrupted and stops with no final flush — distinct from the
successful end-of-stream outcome. -/
theorem cancel_checked_every_10th (targetFPS : ℚ) (env : Env) (hasOutput : Bool) (fn0 : Nat)
    (hstudy : env.studyInitOK = true) (hcoll : env.collectorCreatedInError = false)
    (hfps : targetFPS ≠ 0)
    (h1 : 1 ≤ fn0) (hle : fn0 ≤ env.numFrames)
    (hmod : fn0 % 10 = 0) (hcanc : env.cancelAt fn0 = true)
    (hface : (env.face fn0).isSome = true)
    (hnc : env.submitResult fn0 ≠ .COMPLETED)
    (hgood : ∀ j ∈ List.range (fn0 - 1), goodFrame env (j + 1) = true) :
    resultOutcome (doExtraction targetFPS env hasOutput) = some (.finished false) ∧
    Event.cancelledAt fn0 ∈ resultEvents (doExtraction targetFPS env hasOutput) ∧
    (∀ p : Option ChunkPayload,
       Event.finalFlush p ∉ resultEvents (doExtraction targetFPS env hasOutput)) := by
  have hgood' : ∀ j, 1 ≤ j → j < fn0 → goodFrame env j = true := fun j hj1 hj2 =>
    goodFrame_of_range hgood j hj1 (by omega)
  obtain ⟨E, hE, heq⟩ := ingestLoop_reach env hasOutput (1000000000 / targetFPS)
    env.numFrames 1 fn0 h1 (by omega) hgood'
  have hk : env.numFrames - (fn0 - 1) = (env.numFrames - fn0) + 1 := by omega
  rw [hk] at heq
  obtain ⟨fd, hfd⟩ := Option.isSome_iff_exists.mp hface
  have hstep : ingestLoop env hasOutput (1000000000 / targetFPS)
      ((env.numFrames - fn0) + 1) fn0 =
      { outcome := .finished false
        events := Event.submitted fn0 (fn0 * (1000000000 / targetFPS)) (fn0 == 1000) ::
          ((if env.submitResult fn0 = .CHUNKREADY ∨ env.submitResult fn0 = .COMPLETED then
              Event.chunkRetrieved fn0 (env.chunkData fn0) ::
                saveEvents hasOutput (env.chunkData fn0)
            else []) ++ [Event.rendered fn0, Event.cancelledAt fn0]) } := by
    simp [ingestLoop, hfd, hnc, hmod, hcanc]
  rw [hstep] at heq
  rw [doExtraction_ok targetFPS env hasOutput hstudy hcoll hfps]
  refine ⟨?_, ?_, ?_⟩
  · simp [resultOutcome, heq]
  · simp [resultEvents, heq]
  · intro p hp
    simp only [resultEvents, heq, List.mem_append, List.mem_cons, List.not_mem_nil,
      or_false] at hp
    rcases hp with hp | hp | hp | hp | hp
    · have hb := hE _ hp
      simp [eventBefore] at hb
    · exact Event.noConfusion hp
    · exact absurd hp finalFlush_not_mem_chunkEvs
    · exact Event.noConfusion hp
    · exact Event.noConfusion hp

/-- Witness for C7 amended: the `q` key fires during frame 10 of a ten-frame
run. -/
theorem cancel_checked_every_10th_witness :
    resultOutcome (doExtraction 30 cancelEnv10 true) = some (.finished false) ∧
    Event.cancelledAt 10 ∈ resultEvents (doExtraction 30 cancelEnv10 true) ∧
    Event.finalFlush (some chunkA) ∉ resultEvents (doExtraction 30 cancelEnv10 true) :=
  ⟨(cancel_checked_every_10th 30 cancelEnv10 true 10 rfl rfl (by decide) (by decide)
      (by decide) (by decide) (by decide) (by decide) (by decide) (by decide)).1,
   (cancel_checked_every_10th 30 cancelEnv10 true 10 rfl rfl (by decide) (by decide)
      (by decide) (by decide) (by decide) (by decide) (by decide) (by decide)).2.1,
   (cancel_checked_every_10th 30 cancelEnv10 true 10 rfl rfl (by decide) (by decide)
      (by decide) (by decide) (by decide) (by decide) (by decide) (by decide)).2.2
     (some chunkA)⟩

end Dfx
